import Mathlib

/-!
Verification of the LumiFlix backend's login guard (per-account lockout,
per-IP rate limiter) and video pool selector (deterministic watch selection,
pool initialization/refresh), shallowly embedded from the TypeScript source
(`authRoutes` and `pexelsVideoPool`/`movieRoutes`).
-/

/-! ## Login guard: account lockout (authRoutes `router.post('/login')`) -/

/-- Lockout duration written in the source as `15 * 60 * 1000` ms. -/
def lockoutMs : Nat := 15 * 60 * 1000

/-- The user record fields the login handler reads and writes.
`password` is the stored digest; `bcrypt.compare` is modelled as equality
with the supplied password.  `loginAttempts` maps JS `undefined`/`0` to `0`
(the code reads `user.loginAttempts || 0`).  `lockUntil` is a millisecond
timestamp or `none` (JS `null`/`undefined`); a stored `Date` object is
always truthy in JS, so the source's `user.lockUntil && user.lockUntil > new Date()`
is exactly the `Option` match below. -/
structure UserRec where
  password : String
  loginAttempts : Nat
  lockUntil : Option Nat
deriving Repr, DecidableEq

/-- Responses the login handler's credential path can produce. -/
inductive LoginResp where
  | invalidCredentials
  | accountLocked
  | success
deriving Repr, DecidableEq

/-- HTTP status the handler attaches: 401 `Invalid credentials`,
423 `Account locked. Try later`, 200 on success. -/
def statusOf : LoginResp → Nat
  | .invalidCredentials => 401
  | .accountLocked => 423
  | .success => 200

/-- The `message` field of the JSON error body (`none` on success,
where the handler returns the user object instead). -/
def messageOf : LoginResp → Option String
  | .invalidCredentials => some "Invalid credentials"
  | .accountLocked => some "Account locked. Try later"
  | .success => none

/-- Source line 182: `user.lockUntil && user.lockUntil > new Date()`. -/
def isLockedAt (u : UserRec) (now : Nat) : Bool :=
  match u.lockUntil with
  | some t => now < t
  | none => false

/-- The login handler body for a found user (source lines 182–201):
lock check before password comparison; on mismatch increment
`loginAttempts`, set `lockUntil = now + 15min` once the new value
reaches 5 and answer locked, otherwise answer invalid credentials;
on match reset the counters (when non-default) and succeed.
Returns the response together with the persisted record. -/
def loginFound (now : Nat) (u : UserRec) (suppliedPw : String) :
    LoginResp × UserRec :=
  if isLockedAt u now then (.accountLocked, u)
  else if suppliedPw == u.password then
    let u' := if u.loginAttempts ≠ 0 ∨ u.lockUntil ≠ none
              then { u with loginAttempts := 0, lockUntil := none } else u
    (.success, u')
  else
    let attempts := u.loginAttempts + 1
    let newLock := if 5 ≤ attempts then some (now + lockoutMs) else u.lockUntil
    ((if 5 ≤ attempts then LoginResp.accountLocked else .invalidCredentials),
     { u with loginAttempts := attempts, lockUntil := newLock })

/-- The handler including the account lookup outcome (source lines 179–201):
an unknown email answers the generic 401 `Invalid credentials`. -/
def handleLogin (now : Nat) (user? : Option UserRec) (suppliedPw : String) :
    LoginResp × Option UserRec :=
  match user? with
  | none => (.invalidCredentials, none)
  | some u =>
    let r := loginFound now u suppliedPw
    (r.1, some r.2)

/-! ## Login guard: per-IP rate limiter (authRoutes `loginRateLimit`) -/

/-- Source: `windowMs = 15 * 60 * 1000`. -/
def windowMs : Nat := 15 * 60 * 1000

/-- Source: `max = 10`. -/
def maxPerWindow : Nat := 10

/-- One entry of the in-memory `loginRequestsByIp` map. -/
structure RateEntry where
  count : Nat
  windowStart : Nat
deriving Repr, DecidableEq

/-- One execution of the `loginRateLimit` middleware for a given IP whose
current map entry is `e?` (`none` when the IP was never seen).  Returns
whether the request is allowed through to the handler (`entry.count <= max`)
and the updated entry stored back into the map.  `now - windowStart` uses
truncated subtraction, which agrees with the JS comparison
`now - entry.windowStart > windowMs` for all Nat inputs. -/
def rateStep (now : Nat) (e? : Option RateEntry) : Bool × RateEntry :=
  let e := e?.getD { count := 0, windowStart := now }
  let e := if windowMs < now - e.windowStart
           then { count := 0, windowStart := now } else e
  let e' : RateEntry := { e with count := e.count + 1 }
  (decide (e'.count ≤ maxPerWindow), e')

/-- Run the middleware over a sequence of request times from one IP,
threading the map entry; returns the allow/reject decisions in order and
the final entry. -/
def rateRun (e? : Option RateEntry) : List Nat → List Bool × Option RateEntry
  | [] => ([], e?)
  | t :: ts =>
    let s := rateStep t e?
    let rest := rateRun (some s.2) ts
    (s.1 :: rest.1, rest.2)

/-! ## Video pool selector (movieRoutes `router.get('/watch/:id')`,
pexelsVideoPool service) -/

/-- The provider payload stored verbatim (`videoData`), identified by the
provider id it carries. -/
structure VideoData where
  id : Nat
deriving Repr, DecidableEq

/-- One pooled video document: `pexelsId` (unique) plus the stored payload.
The pool list is kept in creation order (oldest first): `addVideoToPool`
appends, so the database's `sort({createdAt: 1})` is the identity on it. -/
structure PooledVideo where
  pexelsId : Nat
  videoData : VideoData
deriving Repr, DecidableEq

/-- Responses of the watch endpoint relevant here: serve a video, the 503
`Video service temporarily unavailable` body, or the catch-all 500. -/
inductive WatchResp where
  | ok (video : VideoData)
  | unavailable
  | serverError
deriving Repr, DecidableEq

/-- JS array index produced by `Number(movieId) % poolVideos.length`
followed by the element access.  The movie id is an integer or NaN
(`none`).  JS `%` is the truncated remainder (`Int.tmod`, sign of the
dividend); the access `poolVideos[r]` yields an element exactly when `r`
is an integer with `0 ≤ r < length` (JS `-0` equals `0`, matching
`Int.tmod` returning `0`); `x % 0` is NaN, and indeed no `r` satisfies
`r < 0` below. -/
def jsIndex (movieId? : Option Int) (n : Nat) : Option Nat :=
  match movieId? with
  | none => none
  | some a =>
    let r := Int.tmod a n
    if 0 ≤ r ∧ r < n then some r.toNat else none

/-- Source lines 269–270: `poolVideos[Number(movieId) % poolVideos.length]?.videoData`.
`none` models JS `undefined` (out-of-range or NaN index; `?.` guards it). -/
def selectFromPool (movieId? : Option Int) (pool : List PooledVideo) :
    Option VideoData :=
  (jsIndex movieId? pool.length).bind fun i => (pool.get? i).map (·.videoData)

/-- The watch handler's pool logic (source lines 244–283): fetch the pool;
if empty, await `initializeVideoPool` and refetch (`afterInit` is the
refetched pool), answering 503 if still empty; otherwise select
deterministically, answering 503 when the indexed access yields no
payload.  The returned Bool records whether the synchronous
initialization path was taken. -/
def watchCore (movieId? : Option Int) (pool afterInit : List PooledVideo) :
    WatchResp × Bool :=
  if pool.isEmpty then
    if afterInit.isEmpty then (.unavailable, true)
    else
      match selectFromPool movieId? afterInit with
      | some v => (.ok v, true)
      | none => (.unavailable, true)
  else
    match selectFromPool movieId? pool with
    | some v => (.ok v, false)
    | none => (.unavailable, false)

/-- The watch handler with its surrounding `try/catch` (source lines
235–288): a throw from `getMovieDetails` (`movie = .error`) or from the
awaited `initializeVideoPool`/refetch (`afterInit = .error`) is caught and
answered with the 500 response; no exception escapes the handler. -/
def watchEndpoint (movie : Except String (Option Int))
    (pool : List PooledVideo) (afterInit : Except String (List PooledVideo)) :
    WatchResp × Bool :=
  match movie with
  | .error _ => (.serverError, false)
  | .ok movieId? =>
    if pool.isEmpty then
      match afterInit with
      | .error _ => (.serverError, true)
      | .ok p2 => watchCore movieId? pool p2
    else watchCore movieId? pool []

/-! ## Pool initialization and refresh (pexelsVideoPool.ts), sequential
semantics (single caller; the concurrency guard is modelled separately
below for the interleaving analysis). -/

/-- Source: `MIN_POOL_SIZE = 100`. -/
def MIN_POOL_SIZE : Nat := 100

/-- Source: `MAX_POOL_SIZE = 500`. -/
def MAX_POOL_SIZE : Nat := 500

/-- A provider item returned by `client.videos.search`: its `id` and the
payload stored as `videoData`. -/
structure VideoItem where
  id : Nat
  payload : VideoData
deriving Repr, DecidableEq

/-- `addVideoToPool` (source lines 64–91): insert-if-absent keyed by
`pexelsId`; returns the (existing or created) document.  Appending keeps
the pool in creation order. -/
def addVideoToPool (pool : List PooledVideo) (v : VideoItem) :
    List PooledVideo :=
  if pool.any (fun p => p.pexelsId == v.id) then pool
  else pool ++ [{ pexelsId := v.id, videoData := v.payload }]

/-- Inner loop over one provider response (source lines 150–159): add each
video until `addedVideos.length` reaches `MIN_POOL_SIZE`, recording each
newly processed distinct id in `added`. -/
def addResponseVideos : List VideoItem → List PooledVideo → List Nat →
    List PooledVideo × List Nat
  | [], pool, added => (pool, added)
  | v :: vs, pool, added =>
    if MIN_POOL_SIZE ≤ added.length then (pool, added)
    else
      let pool' := addVideoToPool pool v
      let added' := if added.contains v.id then added else added ++ [v.id]
      addResponseVideos vs pool' added'

/-- Outer loop over the generic queries (source lines 132–166): one entry
of `responses` per query, `none` when the provider call for that query
threw (caught and skipped). -/
def initQueryLoop : List (Option (List VideoItem)) → List PooledVideo →
    List Nat → List PooledVideo × List Nat
  | [], pool, added => (pool, added)
  | r :: rs, pool, added =>
    if MIN_POOL_SIZE ≤ added.length then (pool, added)
    else
      match r with
      | none => initQueryLoop rs pool added
      | some vs =>
        let s := addResponseVideos vs pool added
        initQueryLoop rs s.1 s.2

/-- `initializeVideoPool` run by a single caller (source lines 99–183):
skip when the count already meets `MIN_POOL_SIZE` (both the outer check
and the inner double-check re-read the same count here), otherwise run
the query loop and return the final count.  Returns the resulting pool
and the returned count. -/
def initializeVideoPoolSeq (responses : List (Option (List VideoItem)))
    (pool : List PooledVideo) : List PooledVideo × Nat :=
  if MIN_POOL_SIZE ≤ pool.length then (pool, pool.length)
  else
    let countBefore := pool.length
    if MIN_POOL_SIZE ≤ countBefore then (pool, countBefore)
    else
      let s := initQueryLoop responses pool []
      (s.1, s.1.length)

/-- `refreshVideoPool` (source lines 190–218): when the count is at or
above `MAX_POOL_SIZE`, delete the `currentCount - MAX_POOL_SIZE + 50`
oldest documents (`sort({createdAt: 1}).limit(toRemove)`; the pool list
is creation-ordered, so these are its first `toRemove` elements), then
delegate to the initializer and return `afterCount - beforeCount`
(`beforeCount` re-counted after the eviction).  Returns the final pool
and the returned net count, with truncated subtraction safe because the
initializer never removes documents. -/
def refreshVideoPool (responses : List (Option (List VideoItem)))
    (pool : List PooledVideo) : List PooledVideo × Nat :=
  let currentCount := pool.length
  let pool1 := if MAX_POOL_SIZE ≤ currentCount
               then pool.drop (currentCount - MAX_POOL_SIZE + 50) else pool
  let beforeCount := pool1.length
  let s := initializeVideoPoolSeq responses pool1
  (s.1, s.1.length - beforeCount)

/-! ## Concurrency guard of `initializeVideoPool` (source lines 99–183)

The runtime is single-threaded and cooperative: an invocation runs
synchronously between `await` points and can only be interleaved with
another invocation at those points.  The model below gives each
invocation a program counter whose atomic slices are exactly the
synchronous slices of the source, over the shared module state
(`isInitializing`, `initializationPromise`, the document count), and
counts how many invocation bodies reach the provider fetch
(`client.videos.search`), i.e. how many provider fetch sequences run. -/

/-- The shared module/store state seen by concurrent `initializeVideoPool`
invocations.  `promiseOwner` is the caller id whose inner-async promise is
currently stored in `initializationPromise` (`none` for `null`);
`fetchSequences` counts invocation bodies that performed a provider
search call. -/
structure InitShared where
  isInitializing : Bool
  promiseOwner : Option Nat
  poolCount : Nat
  fetchSequences : Nat
deriving Repr, DecidableEq

/-- Program counter of one `initializeVideoPool` invocation, one
constructor per suspension point of the source:
`entry` — about to run lines 100–106 (guard check, then suspend in the
first `await countDocuments`);
`atCount` — resumed from that await, runs lines 109–117 (count check,
set flag, store promise, start the inner async which immediately
suspends in its own `await countDocuments`);
`atInnerCount` — resumed, runs the double-check (lines 120–124) and, when
it fails, proceeds to the first `client.videos.search` call and suspends;
`atFetch` — resumed with the provider response; the rest of the body and
the `finally` block (reset flag and promise) are collapsed into this
resumption;
`joined p` — returned the already-stored promise of caller `p` (line 102);
`returned n` — returned count `n` without initializing (line 110);
`finished` — its own body completed. -/
inductive InitPC where
  | entry
  | atCount
  | atInnerCount
  | atFetch
  | joined (p : Nat)
  | returned (n : Nat)
  | finished
deriving Repr, DecidableEq

/-- One scheduled slice of caller `myId`: runs its current synchronous
slice against the shared state. -/
def initStep (myId : Nat) (s : InitShared) (pc : InitPC) :
    InitShared × InitPC :=
  match pc with
  | .entry =>
    match s.isInitializing, s.promiseOwner with
    | true, some p => (s, .joined p)
    | _, _ => (s, .atCount)
  | .atCount =>
    if MIN_POOL_SIZE ≤ s.poolCount then (s, .returned s.poolCount)
    else ({ s with isInitializing := true, promiseOwner := some myId },
          .atInnerCount)
  | .atInnerCount =>
    if MIN_POOL_SIZE ≤ s.poolCount then
      ({ s with isInitializing := false, promiseOwner := none }, .finished)
    else ({ s with fetchSequences := s.fetchSequences + 1 }, .atFetch)
  | .atFetch =>
    ({ s with isInitializing := false, promiseOwner := none }, .finished)
  | pc => (s, pc)

/-- State of a two-caller system: shared state plus both program
counters (caller ids 0 and 1). -/
structure TwoCallers where
  shared : InitShared
  pcA : InitPC
  pcB : InitPC
deriving Repr, DecidableEq

/-- Run a schedule: `false` schedules caller 0, `true` caller 1. -/
def runSched (st : TwoCallers) : List Bool → TwoCallers
  | [] => st
  | c :: cs =>
    let st' :=
      if c then
        let r := initStep 1 st.shared st.pcB
        { st with shared := r.1, pcB := r.2 }
      else
        let r := initStep 0 st.shared st.pcA
        { st with shared := r.1, pcA := r.2 }
    runSched st' cs

/-- Both callers invoke `initializeVideoPool` on an empty pool; the guard
is initially clear. -/
def twoCallersInit : TwoCallers :=
  { shared := { isInitializing := false, promiseOwner := none,
                poolCount := 0, fetchSequences := 0 },
    pcA := .entry, pcB := .entry }

/-! ## Claims about the login guard -/

/-- Claim C1: starting from a fresh account (counter 0, no lock), each of
the first four wrong-password attempts answers `Invalid credentials` and
increments the stored counter; the 5th failure sets `lockUntil` to
`now + 15min` and answers `Account locked`; and every attempt before that
time — even with the correct password — answers `Account locked` and
leaves the record unchanged. -/
theorem lockout_after_five_consecutive_failures
    (u0 : UserRec) (h0 : u0.loginAttempts = 0) (hl : u0.lockUntil = none)
    (t1 t2 t3 t4 t5 : Nat) (p1 p2 p3 p4 p5 : String)
    (hp1 : p1 ≠ u0.password) (hp2 : p2 ≠ u0.password) (hp3 : p3 ≠ u0.password)
    (hp4 : p4 ≠ u0.password) (hp5 : p5 ≠ u0.password) :
    (loginFound t1 u0 p1).1 = .invalidCredentials ∧
    (loginFound t2 (loginFound t1 u0 p1).2 p2).1 = .invalidCredentials ∧
    (loginFound t3 (loginFound t2 (loginFound t1 u0 p1).2 p2).2 p3).1
      = .invalidCredentials ∧
    (loginFound t4 (loginFound t3 (loginFound t2 (loginFound t1 u0 p1).2
      p2).2 p3).2 p4).1 = .invalidCredentials ∧
    (loginFound t5 (loginFound t4 (loginFound t3 (loginFound t2
      (loginFound t1 u0 p1).2 p2).2 p3).2 p4).2 p5).1 = .accountLocked ∧
    (loginFound t5 (loginFound t4 (loginFound t3 (loginFound t2
      (loginFound t1 u0 p1).2 p2).2 p3).2 p4).2 p5).2
      = { u0 with loginAttempts := 5, lockUntil := some (t5 + lockoutMs) } ∧
    (∀ t pw, t < t5 + lockoutMs →
      loginFound t { u0 with loginAttempts := 5,
                             lockUntil := some (t5 + lockoutMs) } pw
        = (.accountLocked,
           { u0 with loginAttempts := 5, lockUntil := some (t5 + lockoutMs) })) := by
  obtain ⟨pw, a, l⟩ := u0
  simp only at h0 hl hp1 hp2 hp3 hp4 hp5
  subst h0 hl
  have e1 : loginFound t1 ⟨pw, 0, none⟩ p1
      = (.invalidCredentials, ⟨pw, 1, none⟩) := by
    simp [loginFound, isLockedAt, hp1]
  have e2 : loginFound t2 ⟨pw, 1, none⟩ p2
      = (.invalidCredentials, ⟨pw, 2, none⟩) := by
    simp [loginFound, isLockedAt, hp2]
  have e3 : loginFound t3 ⟨pw, 2, none⟩ p3
      = (.invalidCredentials, ⟨pw, 3, none⟩) := by
    simp [loginFound, isLockedAt, hp3]
  have e4 : loginFound t4 ⟨pw, 3, none⟩ p4
      = (.invalidCredentials, ⟨pw, 4, none⟩) := by
    simp [loginFound, isLockedAt, hp4]
  have e5 : loginFound t5 ⟨pw, 4, none⟩ p5
      = (.accountLocked, ⟨pw, 5, some (t5 + lockoutMs)⟩) := by
    simp [loginFound, isLockedAt, hp5]
  refine ⟨by simp [e1], by simp [e1, e2], by simp [e1, e2, e3],
          by simp [e1, e2, e3, e4], by simp [e1, e2, e3, e4, e5],
          by simp [e1, e2, e3, e4, e5], ?_⟩
  intro t pw' ht
  simp [loginFound, isLockedAt, ht]

/-- Witness for C1: a concrete fresh account, five wrong-password attempts
at times 1..5, evaluated through the theorem. -/
theorem lockout_after_five_consecutive_failures_witness :
    ((UserRec.mk "pw" 0 none).loginAttempts = 0 ∧
     (UserRec.mk "pw" 0 none).lockUntil = none ∧ "x" ≠ "pw") ∧
    ((loginFound 1 ⟨"pw", 0, none⟩ "x").1 = .invalidCredentials ∧
     (loginFound 2 (loginFound 1 ⟨"pw", 0, none⟩ "x").2 "x").1
       = .invalidCredentials ∧
     (loginFound 3 (loginFound 2 (loginFound 1 ⟨"pw", 0, none⟩ "x").2 "x").2
       "x").1 = .invalidCredentials ∧
     (loginFound 4 (loginFound 3 (loginFound 2 (loginFound 1 ⟨"pw", 0, none⟩
       "x").2 "x").2 "x").2 "x").1 = .invalidCredentials ∧
     (loginFound 5 (loginFound 4 (loginFound 3 (loginFound 2 (loginFound 1
       ⟨"pw", 0, none⟩ "x").2 "x").2 "x").2 "x").2 "x").1 = .accountLocked ∧
     (loginFound 5 (loginFound 4 (loginFound 3 (loginFound 2 (loginFound 1
       ⟨"pw", 0, none⟩ "x").2 "x").2 "x").2 "x").2 "x").2
       = UserRec.mk "pw" 5 (some (5 + lockoutMs)) ∧
     (∀ t pw, t < 5 + lockoutMs →
       loginFound t (UserRec.mk "pw" 5 (some (5 + lockoutMs))) pw
         = (.accountLocked, UserRec.mk "pw" 5 (some (5 + lockoutMs))))) :=
  ⟨⟨rfl, rfl, by decide⟩,
   lockout_after_five_consecutive_failures ⟨"pw", 0, none⟩ rfl rfl
     1 2 3 4 5 "x" "x" "x" "x" "x"
     (by decide) (by decide) (by decide) (by decide) (by decide)⟩

/-- Claim C4: a correct-password login on an account that is not currently
locked (no lock, or `lockUntil` elapsed) succeeds and persists
`loginAttempts = 0`, `lockUntil = null`. -/
theorem login_success_resets_counters
    (u : UserRec) (now : Nat)
    (hel : ∀ te ∈ u.lockUntil, te ≤ now) :
    loginFound now u u.password
      = (.success, { u with loginAttempts := 0, lockUntil := none }) := by
  obtain ⟨pw, a, l⟩ := u
  have hlock : isLockedAt ⟨pw, a, l⟩ now = false := by
    cases l with
    | none => simp [isLockedAt]
    | some te =>
      have := hel te (by simp)
      simp [isLockedAt]; omega
  by_cases hd : a ≠ 0 ∨ l ≠ none
  · simp [loginFound, hlock, hd]
  · push_neg at hd
    obtain ⟨ha, hl⟩ := hd
    subst ha hl
    simp [loginFound, hlock]

/-- Witness for C4: an account with a stale (elapsed) lock and a nonzero
counter logs in with the correct password and ends reset. -/
theorem login_success_resets_counters_witness :
    (∀ te ∈ (UserRec.mk "pw" 3 (some 5)).lockUntil, te ≤ 10) ∧
    loginFound 10 ⟨"pw", 3, some 5⟩ "pw"
      = (.success, ⟨"pw", 0, none⟩) :=
  ⟨by simp, login_success_resets_counters ⟨"pw", 3, some 5⟩ 10 (by simp)⟩

/-- Counterexample to claim C5: an account whose `lockUntil` (1000) has
elapsed at `now = 2000` submits a single wrong password and is
immediately re-locked (response `accountLocked`, fresh future
`lockUntil = 2000 + 15min`): the code never resets `loginAttempts` when
the lock merely elapses, so 5 fresh failures are not required. -/
theorem single_failure_relocks_after_expiry_cex :
    (1000 : Nat) ≤ 2000 ∧
    loginFound 2000 ⟨"secret", 5, some 1000⟩ "wrong"
      = (.accountLocked, ⟨"secret", 6, some (2000 + lockoutMs)⟩) ∧
    2000 < 2000 + lockoutMs := by
  refine ⟨by norm_num, ?_, by norm_num [lockoutMs]⟩
  simp [loginFound, isLockedAt, lockoutMs]

/-- Amended claim C5: `loginAttempts` counts consecutive failures since
the last successful login only; it survives lock expiry.  For any account
whose lock has elapsed and whose counter is still at least 4, a single
wrong-password attempt answers `accountLocked` and re-locks for another
15 minutes. -/
theorem single_failure_relocks_after_expiry
    (u : UserRec) (now : Nat) (pw : String)
    (hatt : 4 ≤ u.loginAttempts)
    (hel : ∀ te ∈ u.lockUntil, te ≤ now)
    (hpw : pw ≠ u.password) :
    loginFound now u pw
      = (.accountLocked,
         { u with loginAttempts := u.loginAttempts + 1,
                  lockUntil := some (now + lockoutMs) }) := by
  obtain ⟨spw, a, l⟩ := u
  simp only at hatt hel hpw
  have hlock : isLockedAt ⟨spw, a, l⟩ now = false := by
    cases l with
    | none => simp [isLockedAt]
    | some te =>
      have := hel te (by simp)
      simp [isLockedAt]; omega
  have h5 : 5 ≤ a + 1 := by omega
  simp [loginFound, hlock, hpw, h5]

/-- Witness for the amended C5 at a concrete elapsed-lock account. -/
theorem single_failure_relocks_after_expiry_witness :
    (4 ≤ (UserRec.mk "secret" 5 (some 1000)).loginAttempts ∧
     (∀ te ∈ (UserRec.mk "secret" 5 (some 1000)).lockUntil, te ≤ 2000) ∧
     "wrong" ≠ "secret") ∧
    loginFound 2000 ⟨"secret", 5, some 1000⟩ "wrong"
      = (.accountLocked, ⟨"secret", 6, some (2000 + lockoutMs)⟩) :=
  ⟨⟨by norm_num, by simp, by decide⟩,
   single_failure_relocks_after_expiry ⟨"secret", 5, some 1000⟩ 2000 "wrong"
     (by norm_num) (by simp) (by decide)⟩

/-- Counterexample to claim C6: a wrong-password attempt on an existing,
not-locked account whose counter stands at 4 answers 423
`Account locked. Try later`, while an unknown email answers 401
`Invalid credentials` — the two cases are distinguishable, so the claim's
universal indistinguishability fails. -/
theorem invalid_credentials_distinguishable_cex :
    (UserRec.mk "secret" 4 none).lockUntil = none ∧
    statusOf (loginFound 0 ⟨"secret", 4, none⟩ "x").1 = 423 ∧
    statusOf (handleLogin 0 none "x").1 = 401 ∧
    (423 : Nat) ≠ 401 := by
  refine ⟨rfl, ?_, by simp [handleLogin, statusOf], by norm_num⟩
  simp [loginFound, isLockedAt, statusOf]

/-- Amended claim C6: whenever the wrong-password attempt leaves the
counter strictly below the lockout threshold (fewer than 4 prior
failures), an existing-account/wrong-password login and an
unknown-email login produce the same `Invalid credentials` response:
same 401 status and same message body.  The 5th failure instead answers
the locked signal, which is distinguishable. -/
theorem invalid_credentials_indistinguishable
    (u : UserRec) (now now' : Nat) (pw pw' : String)
    (hlock : isLockedAt u now = false)
    (hcnt : u.loginAttempts + 1 < 5)
    (hpw : pw ≠ u.password) :
    (loginFound now u pw).1 = .invalidCredentials ∧
    (handleLogin now' none pw').1 = .invalidCredentials ∧
    statusOf (loginFound now u pw).1 = statusOf (handleLogin now' none pw').1 ∧
    messageOf (loginFound now u pw).1 = messageOf (handleLogin now' none pw').1 := by
  have h5 : ¬ 5 ≤ u.loginAttempts + 1 := by omega
  have hmain : (loginFound now u pw).1 = .invalidCredentials := by
    simp [loginFound, hlock, hpw, h5]
  exact ⟨hmain, by simp [handleLogin], by simp [hmain, handleLogin],
         by simp [hmain, handleLogin]⟩

/-- Witness for the amended C6 at a concrete account with 2 prior
failures. -/
theorem invalid_credentials_indistinguishable_witness :
    (isLockedAt ⟨"secret", 2, none⟩ 7 = false ∧
     (UserRec.mk "secret" 2 none).loginAttempts + 1 < 5 ∧ "x" ≠ "secret") ∧
    ((loginFound 7 ⟨"secret", 2, none⟩ "x").1 = .invalidCredentials ∧
     (handleLogin 9 none "y").1 = .invalidCredentials ∧
     statusOf (loginFound 7 ⟨"secret", 2, none⟩ "x").1
       = statusOf (handleLogin 9 none "y").1 ∧
     messageOf (loginFound 7 ⟨"secret", 2, none⟩ "x").1
       = messageOf (handleLogin 9 none "y").1) :=
  ⟨⟨rfl, by norm_num, by decide⟩,
   invalid_credentials_indistinguishable ⟨"secret", 2, none⟩ 7 9 "x" "y"
     rfl (by norm_num) (by decide)⟩

/-! ## Claims about the rate limiter -/

/-- Helper: running requests that all fall inside the current window
(every time at most `windowStart + windowMs`) never resets the entry: the
i-th of them is allowed exactly when it brings the count to at most 10,
and the final count is the starting count plus the number of requests. -/
theorem rateRun_within_window (ts : List Nat) (c ws : Nat)
    (h : ∀ t ∈ ts, t ≤ ws + windowMs) :
    (∀ i, i < ts.length →
      (rateRun (some ⟨c, ws⟩) ts).1.getD i false
        = decide (c + i < maxPerWindow)) ∧
    (rateRun (some ⟨c, ws⟩) ts).2 = some ⟨c + ts.length, ws⟩ := by
  induction ts generalizing c with
  | nil => simp [rateRun]
  | cons t ts ih =>
    have hcond : ¬ windowMs < t - ws := by
      have := h t (by simp)
      omega
    have hstep : rateStep t (some ⟨c, ws⟩)
        = (decide (c + 1 ≤ maxPerWindow), ⟨c + 1, ws⟩) := by
      simp [rateStep, hcond]
    obtain ⟨ih1, ih2⟩ := ih (c + 1) (fun t ht => h t (by simp [ht]))
    constructor
    · intro i hi
      match i with
      | 0 =>
        simp only [rateRun, hstep, List.getD_cons_zero]
        rw [decide_eq_decide]
        omega
      | i + 1 =>
        simp only [rateRun, hstep, List.getD_cons_succ]
        rw [ih1 i (by simpa using hi), decide_eq_decide]
        omega
    · simp only [rateRun, hstep, ih2]
      have : c + 1 + ts.length = c + (ts.length + 1) := by omega
      rw [this, List.length_cons]

/-- Helper: running a concatenation of request sequences threads the map
entry from the first into the second. -/
theorem rateRun_append (l1 l2 : List Nat) (e? : Option RateEntry) :
    rateRun e? (l1 ++ l2)
      = ((rateRun e? l1).1 ++ (rateRun (rateRun e? l1).2 l2).1,
         (rateRun (rateRun e? l1).2 l2).2) := by
  induction l1 generalizing e? with
  | nil => simp [rateRun]
  | cons t l1 ih => simp [rateRun, ih]

/-- Claim C2: from one IP, for any requests `t0 :: ts` all inside the
15-minute window opened at `t0`, the i-th request (0-based) reaches the
login handler exactly when `i < 10` — the first 10 are allowed, every
further one is rejected with the 429 signal; once a request arrives
strictly more than 15 minutes after `t0`, the counter resets and the
same first-10 pattern holds for the new window; and a single run over
both windows is the concatenation of the two. -/
theorem loginRateLimit_window_behavior
    (t0 t' : Nat) (ts ts' : List Nat)
    (h1 : ∀ t ∈ ts, t ≤ t0 + windowMs)
    (h2 : t0 + windowMs < t')
    (h3 : ∀ t ∈ ts', t ≤ t' + windowMs) :
    (∀ i, i < ts.length + 1 →
      (rateRun none (t0 :: ts)).1.getD i false = decide (i < maxPerWindow)) ∧
    (rateRun none (t0 :: ts)).2 = some ⟨ts.length + 1, t0⟩ ∧
    (∀ j, j < ts'.length + 1 →
      (rateRun (some ⟨ts.length + 1, t0⟩) (t' :: ts')).1.getD j false
        = decide (j < maxPerWindow)) ∧
    (rateRun (some ⟨ts.length + 1, t0⟩) (t' :: ts')).2
      = some ⟨ts'.length + 1, t'⟩ ∧
    rateRun none ((t0 :: ts) ++ t' :: ts')
      = ((rateRun none (t0 :: ts)).1
          ++ (rateRun (some ⟨ts.length + 1, t0⟩) (t' :: ts')).1,
         some ⟨ts'.length + 1, t'⟩) := by
  have hstep0 : rateStep t0 none = (true, ⟨1, t0⟩) := by
    simp [rateStep, windowMs, maxPerWindow]
  obtain ⟨w1, w2⟩ := rateRun_within_window ts 1 t0 h1
  have hrun1 : ∀ i, i < ts.length + 1 →
      (rateRun none (t0 :: ts)).1.getD i false = decide (i < maxPerWindow) := by
    intro i hi
    match i with
    | 0 =>
      simp only [rateRun, hstep0, List.getD_cons_zero]
      simp [maxPerWindow]
    | i + 1 =>
      simp only [rateRun, hstep0, List.getD_cons_succ]
      rw [w1 i (by omega), decide_eq_decide]
      omega
  have hend1 : (rateRun none (t0 :: ts)).2 = some ⟨ts.length + 1, t0⟩ := by
    simp only [rateRun, hstep0, w2]
    have : 1 + ts.length = ts.length + 1 := by omega
    rw [this]
  have hstepR : rateStep t' (some ⟨ts.length + 1, t0⟩) = (true, ⟨1, t'⟩) := by
    have hc : windowMs < t' - t0 := by omega
    simp [rateStep, hc, maxPerWindow]
  obtain ⟨v1, v2⟩ := rateRun_within_window ts' 1 t' h3
  have hrun2 : ∀ j, j < ts'.length + 1 →
      (rateRun (some ⟨ts.length + 1, t0⟩) (t' :: ts')).1.getD j false
        = decide (j < maxPerWindow) := by
    intro j hj
    match j with
    | 0 =>
      simp only [rateRun, hstepR, List.getD_cons_zero]
      simp [maxPerWindow]
    | j + 1 =>
      simp only [rateRun, hstepR, List.getD_cons_succ]
      rw [v1 j (by omega), decide_eq_decide]
      omega
  have hend2 : (rateRun (some ⟨ts.length + 1, t0⟩) (t' :: ts')).2
      = some ⟨ts'.length + 1, t'⟩ := by
    simp only [rateRun, hstepR, v2]
    have : 1 + ts'.length = ts'.length + 1 := by omega
    rw [this]
  refine ⟨hrun1, hend1, hrun2, hend2, ?_⟩
  rw [rateRun_append, hend1, hend2]

/-- Witness for C2: 12 requests at time 0 (10 allowed, 2 rejected), then
11 requests just past the window (counter reset, 10 allowed again). -/
theorem loginRateLimit_window_behavior_witness :
    ((∀ t ∈ List.replicate 11 0, t ≤ 0 + windowMs) ∧
     0 + windowMs < windowMs + 1 ∧
     (∀ t ∈ List.replicate 10 (windowMs + 1), t ≤ (windowMs + 1) + windowMs)) ∧
    ((∀ i, i < (List.replicate 11 (0 : Nat)).length + 1 →
      (rateRun none (0 :: List.replicate 11 0)).1.getD i false
        = decide (i < maxPerWindow)) ∧
    (rateRun none (0 :: List.replicate 11 0)).2
      = some ⟨(List.replicate 11 (0 : Nat)).length + 1, 0⟩ ∧
    (∀ j, j < (List.replicate 10 (windowMs + 1)).length + 1 →
      (rateRun (some ⟨(List.replicate 11 (0 : Nat)).length + 1, 0⟩)
          ((windowMs + 1) :: List.replicate 10 (windowMs + 1))).1.getD j false
        = decide (j < maxPerWindow)) ∧
    (rateRun (some ⟨(List.replicate 11 (0 : Nat)).length + 1, 0⟩)
        ((windowMs + 1) :: List.replicate 10 (windowMs + 1))).2
      = some ⟨(List.replicate 10 (windowMs + 1)).length + 1, windowMs + 1⟩ ∧
    rateRun none ((0 :: List.replicate 11 0)
        ++ (windowMs + 1) :: List.replicate 10 (windowMs + 1))
      = ((rateRun none (0 :: List.replicate 11 0)).1
          ++ (rateRun (some ⟨(List.replicate 11 (0 : Nat)).length + 1, 0⟩)
               ((windowMs + 1) :: List.replicate 10 (windowMs + 1))).1,
         some ⟨(List.replicate 10 (windowMs + 1)).length + 1, windowMs + 1⟩)) :=
  ⟨⟨fun t ht => by rw [List.eq_of_mem_replicate ht]; exact Nat.zero_le _,
    by omega,
    fun t ht => by rw [List.eq_of_mem_replicate ht]; omega⟩,
   loginRateLimit_window_behavior 0 (windowMs + 1)
     (List.replicate 11 0) (List.replicate 10 (windowMs + 1))
     (fun t ht => by rw [List.eq_of_mem_replicate ht]; exact Nat.zero_le _)
     (by omega)
     (fun t ht => by rw [List.eq_of_mem_replicate ht]; omega)⟩

/-! ## Claims about the watch selector -/

/-- Helper: for a nonnegative (real TMDB) catalog id and a nonempty pool,
the JS index computation is exactly `catalogId mod poolSize`. -/
theorem jsIndex_natCast (c n : Nat) (hn : 0 < n) :
    jsIndex (some (c : Int)) n = some (c % n) := by
  have htmod : Int.tmod (c : Int) (n : Int) = ((c % n : Nat) : Int) := by
    rw [Int.tmod_eq_emod (by positivity) (by positivity)]
    exact_mod_cast Int.ofNat_emod c n
  have hlt : ((c % n : Nat) : Int) < (n : Int) := by
    exact_mod_cast Nat.mod_lt c hn
  simp [jsIndex, htmod, hlt]
  omega

/-- Helper: selection from a nonempty pool with a nonnegative catalog id
returns the payload of the asset at index `catalogId mod poolSize`. -/
theorem selectFromPool_natCast (c : Nat) (pool : List PooledVideo)
    (hne : pool ≠ []) :
    selectFromPool (some (c : Int)) pool
      = some (pool.get ⟨c % pool.length,
          Nat.mod_lt c (List.length_pos.mpr hne)⟩).videoData := by
  have hn : 0 < pool.length := List.length_pos.mpr hne
  have hix : c % pool.length < pool.length := Nat.mod_lt c hn
  rw [selectFromPool, jsIndex_natCast c pool.length hn]
  simp only [Option.some_bind]
  simp
  exact ⟨pool.get ⟨c % pool.length, hix⟩, List.getElem?_eq_getElem hix, rfl⟩

/-- Claim C3: for every nonempty pool and every catalog id, the watch
operation serves the payload of the asset at index
`catalogId mod poolSize`; in particular a pool with externalIds
`[10, 20, 30]` serves the asset with externalId 20 for catalog id 7
(`7 mod 3 = 1`); and the selection is deterministic: the same id against
the same pool always yields the same response. -/
theorem watch_selects_catalogId_mod_poolSize :
    (∀ (pool afterInit : List PooledVideo) (cid : Nat) (hne : pool ≠ []),
      watchCore (some (cid : Int)) pool afterInit
        = (.ok (pool.get ⟨cid % pool.length,
            Nat.mod_lt cid (List.length_pos.mpr hne)⟩).videoData, false)) ∧
    watchCore (some (7 : Int))
        [⟨10, ⟨10⟩⟩, ⟨20, ⟨20⟩⟩, ⟨30, ⟨30⟩⟩] []
      = (.ok ⟨20⟩, false) ∧
    (∀ (movieId? : Option Int) (pool afterInit : List PooledVideo),
      watchCore movieId? pool afterInit = watchCore movieId? pool afterInit) := by
  refine ⟨?_, by decide, fun _ _ _ => rfl⟩
  intro pool afterInit cid hne
  have hempty : pool.isEmpty = false := by
    simp [List.isEmpty_iff, hne]
  rw [watchCore]
  simp only [hempty, Bool.false_eq_true, if_false,
    selectFromPool_natCast cid pool hne]

/-- Witness for C3: the scenario pool `[10, 20, 30]` with catalog id 7,
evaluated through the general conjunct of the theorem. -/
theorem watch_selects_catalogId_mod_poolSize_witness :
    ([(⟨10, ⟨10⟩⟩ : PooledVideo), ⟨20, ⟨20⟩⟩, ⟨30, ⟨30⟩⟩] ≠ []) ∧
    watchCore (some (7 : Int)) [⟨10, ⟨10⟩⟩, ⟨20, ⟨20⟩⟩, ⟨30, ⟨30⟩⟩] []
      = (.ok ⟨20⟩, false) :=
  ⟨by decide,
   by
    have h := watch_selects_catalogId_mod_poolSize.1
      [⟨10, ⟨10⟩⟩, ⟨20, ⟨20⟩⟩, ⟨30, ⟨30⟩⟩] [] 7 (by decide)
    simpa using h⟩

/-- Claim C7: a watch request on an empty pool always takes the
synchronous initialization path; if the refetched pool is still empty the
response is the 503 `unavailable` signal; and a throw from the movie
lookup or from the awaited initialization is caught into the 500
response — the handler is a total function, no exception escapes. -/
theorem watch_empty_pool_initializes_then_503 :
    (∀ (movieId? : Option Int) (afterInit : List PooledVideo),
      (watchEndpoint (.ok movieId?) [] (.ok afterInit)).2 = true) ∧
    (∀ movieId? : Option Int,
      watchEndpoint (.ok movieId?) [] (.ok []) = (.unavailable, true)) ∧
    (∀ (e : String) (pool : List PooledVideo)
        (afterInit : Except String (List PooledVideo)),
      watchEndpoint (.error e) pool afterInit = (.serverError, false)) ∧
    (∀ (movieId? : Option Int) (e : String),
      watchEndpoint (.ok movieId?) [] (.error e) = (.serverError, true)) := by
  refine ⟨?_, ?_, ?_, ?_⟩
  · intro movieId? afterInit
    rcases afterInit with _ | ⟨v, vs⟩
    · rfl
    · simp only [watchEndpoint, watchCore, List.isEmpty_cons]
      rcases h : selectFromPool movieId? (v :: vs) with _ | w <;> simp [h]
  · intro movieId?; rfl
  · intro e pool afterInit; rfl
  · intro movieId? e; rfl

/-- Claim C10 (implicit): whenever the deterministic index lookup yields
no asset payload — a NaN or negative `Number(movieId)` makes the computed
index select nothing — the watch operation answers the 503 `unavailable`
signal instead of throwing or serving an undefined asset; in particular a
NaN movie id always gets 503. -/
theorem watch_unselected_index_answers_503 :
    (∀ (movieId? : Option Int) (pool afterInit : List PooledVideo),
      pool ≠ [] → selectFromPool movieId? pool = none →
      watchCore movieId? pool afterInit = (.unavailable, false)) ∧
    (∀ (pool afterInit : List PooledVideo), pool ≠ [] →
      watchCore none pool afterInit = (.unavailable, false)) := by
  have hmain : ∀ (movieId? : Option Int) (pool afterInit : List PooledVideo),
      pool ≠ [] → selectFromPool movieId? pool = none →
      watchCore movieId? pool afterInit = (.unavailable, false) := by
    intro movieId? pool afterInit hne hsel
    have hempty : pool.isEmpty = false := by simp [List.isEmpty_iff, hne]
    rw [watchCore]
    simp [hempty, hsel]
  exact ⟨hmain, fun pool afterInit hne =>
    hmain none pool afterInit hne (by simp [selectFromPool, jsIndex])⟩

/-- Witness for C10: a negative movie id (`-1`) against a 3-asset pool:
`-1 % 3 = -1` in JS, the array access yields `undefined`, the response is
503. -/
theorem watch_unselected_index_answers_503_witness :
    (([(⟨1, ⟨1⟩⟩ : PooledVideo), ⟨2, ⟨2⟩⟩, ⟨3, ⟨3⟩⟩] ≠ []) ∧
     selectFromPool (some (-1 : Int)) [⟨1, ⟨1⟩⟩, ⟨2, ⟨2⟩⟩, ⟨3, ⟨3⟩⟩] = none) ∧
    watchCore (some (-1 : Int)) [⟨1, ⟨1⟩⟩, ⟨2, ⟨2⟩⟩, ⟨3, ⟨3⟩⟩] []
      = (.unavailable, false) :=
  ⟨⟨by decide, by decide⟩,
   watch_unselected_index_answers_503.1 (some (-1 : Int))
     [⟨1, ⟨1⟩⟩, ⟨2, ⟨2⟩⟩, ⟨3, ⟨3⟩⟩] [] (by decide) (by decide)⟩

/-! ## Claims about pool refresh and the initialization guard -/

/-- Claim C9: when the pool holds at least `MAX_POOL_SIZE` (500) assets,
`refreshVideoPool` first deletes exactly the `size - 500 + 50` oldest
assets in creation order (keeping the newest 450), then delegates to the
initializer on the evicted pool, and returns the count of assets the
initializer added on top of the post-eviction count; with 450 remaining
the initializer's minimum-size check (100) short-circuits, so the pool
stays at the evicted 450 and the net count returned is 0. -/
theorem refresh_evicts_oldest_then_delegates
    (responses : List (Option (List VideoItem))) (pool : List PooledVideo)
    (hfull : MAX_POOL_SIZE ≤ pool.length) :
    refreshVideoPool responses pool
      = ((initializeVideoPoolSeq responses
            (pool.drop (pool.length - MAX_POOL_SIZE + 50))).1,
         (initializeVideoPoolSeq responses
            (pool.drop (pool.length - MAX_POOL_SIZE + 50))).1.length
           - (pool.drop (pool.length - MAX_POOL_SIZE + 50)).length) ∧
    (pool.drop (pool.length - MAX_POOL_SIZE + 50)).length
      = MAX_POOL_SIZE - 50 ∧
    refreshVideoPool responses pool
      = (pool.drop (pool.length - MAX_POOL_SIZE + 50), 0) := by
  have hlen : (pool.drop (pool.length - MAX_POOL_SIZE + 50)).length
      = MAX_POOL_SIZE - 50 := by
    rw [List.length_drop]
    simp only [MAX_POOL_SIZE] at hfull ⊢
    omega
  have hinit : initializeVideoPoolSeq responses
      (pool.drop (pool.length - MAX_POOL_SIZE + 50))
      = (pool.drop (pool.length - MAX_POOL_SIZE + 50), MAX_POOL_SIZE - 50) := by
    have hc : MIN_POOL_SIZE
        ≤ (pool.drop (pool.length - MAX_POOL_SIZE + 50)).length := by
      rw [hlen]; simp [MIN_POOL_SIZE, MAX_POOL_SIZE]
    rw [initializeVideoPoolSeq, if_pos hc, hlen]
  have hrefresh : refreshVideoPool responses pool
      = ((initializeVideoPoolSeq responses
            (pool.drop (pool.length - MAX_POOL_SIZE + 50))).1,
         (initializeVideoPoolSeq responses
            (pool.drop (pool.length - MAX_POOL_SIZE + 50))).1.length
           - (pool.drop (pool.length - MAX_POOL_SIZE + 50)).length) := by
    rw [refreshVideoPool]
    simp [hfull]
  refine ⟨hrefresh, hlen, ?_⟩
  rw [hrefresh, hinit, hlen]
  simp

/-- Witness for C9: a concrete creation-ordered pool of exactly 500
assets with empty provider responses: 100 oldest evicted, initializer
short-circuits at 450 ≥ 100, net count 0. -/
theorem refresh_evicts_oldest_then_delegates_witness :
    (MAX_POOL_SIZE
      ≤ ((List.range 500).map
          (fun i => PooledVideo.mk i ⟨i⟩)).length) ∧
    refreshVideoPool []
        ((List.range 500).map (fun i => PooledVideo.mk i ⟨i⟩))
      = (((List.range 500).map (fun i => PooledVideo.mk i ⟨i⟩)).drop
           (((List.range 500).map (fun i => PooledVideo.mk i ⟨i⟩)).length
             - MAX_POOL_SIZE + 50), 0) :=
  ⟨by simp [MAX_POOL_SIZE],
   (refresh_evicts_oldest_then_delegates []
     ((List.range 500).map (fun i => PooledVideo.mk i ⟨i⟩))
     (by simp [MAX_POOL_SIZE])).2.2⟩

/-- Claim C8 fails on the code: with an empty pool, two concurrent
`initializeVideoPool` invocations can both pass the
`isInitializing && initializationPromise` check before either has resumed
from its first `await countDocuments` — the flag is only set *after* that
suspension point.  Under the schedule A,B,A,B,A,B both callers then set
the flag, register two distinct promises (the second overwriting the
first, so the callers hold different results), and both bodies reach the
provider search: two provider fetch sequences run, not one. -/
theorem initializeVideoPool_guard_race_two_fetches :
    (runSched twoCallersInit [false, true, false, true]).pcA
      = .atInnerCount ∧
    (runSched twoCallersInit [false, true, false, true]).pcB
      = .atInnerCount ∧
    (runSched twoCallersInit [false, true, false]).shared.promiseOwner
      = some 0 ∧
    (runSched twoCallersInit [false, true, false, true]).shared.promiseOwner
      = some 1 ∧
    (runSched twoCallersInit
        [false, true, false, true, false, true]).shared.fetchSequences = 2 ∧
    (runSched twoCallersInit
        [false, true, false, true, false, true, false, true]).shared.isInitializing
      = false := by
  refine ⟨?_, ?_, ?_, ?_, ?_, ?_⟩ <;>
    simp [runSched, initStep, twoCallersInit, MIN_POOL_SIZE]
